import Mathlib

/-!
Verification of the DiceyDecisions client (src/index.js) against its
natural-language specification.

The source is a single-page React client.  We shallowly embed the pieces of
client logic the claims are about:

* the `Room` view component's local state (React `useState` hooks become the
  fields of `RoomViewState`);
* its operations `loadRoom`, `submitOption`, `openVoting`, `vote`,
  `closeVoting`, `triggerTiebreaker` as pure state-transition functions.
  Each network call's outcome is an explicit input of type
  `Except (Option String) α`: `.ok` is a 2xx response with its JSON body,
  `.error m` is a failure where `m` models `err.response?.data?.message`
  (`none` if the server provided no message);
* the effects of an operation — toasts sent to the notification sink, API
  calls issued, navigations — are collected in the returned result record;
* the JSX render conditions as boolean predicates over the state;
* the polling `useEffect` (source lines 328-332) as the function giving the
  number of pending interval timers after React has committed a render and
  synchronized effects (React runs the previous effect's cleanup —
  `clearInterval` — before re-running the body, and on unmount).

Identifiers (`_id` fields) are modelled as `Nat`.  JS string trimming and
upper-casing are modelled by `jsTrim` / `jsToUpper` below.  The
`shareLink` field (derived from `window.location`) is browser state outside
every claim and is omitted from the embedded state.
-/

/-- Drop leading whitespace characters. -/
def dropWhitespace : List Char → List Char
  | [] => []
  | c :: cs => if c.isWhitespace then dropWhitespace cs else c :: cs

/-- JS `String.prototype.trim`: strip whitespace from both ends.  (Defined
over the character list so that it evaluates by kernel reduction.) -/
def jsTrim (s : String) : String :=
  ⟨dropWhitespace ((dropWhitespace s.data.reverse).reverse)⟩

/-- JS `String.prototype.toUpperCase` on the alphabets this client uses. -/
def jsToUpper (s : String) : String :=
  ⟨s.data.map Char.toUpper⟩

/-- The decision record optionally carried by a room
(`room.finalDecision`, of which the client reads only `optionId`). -/
structure FinalDecision where
  optionId : Nat
  deriving Repr, DecidableEq

/-- Server-side room record as consumed by the client. -/
structure RoomData where
  _id : Nat
  creatorId : String
  title : String
  description : String
  votingOpen : Bool
  finalDecision : Option FinalDecision
  deriving Repr, DecidableEq

/-- Server-side option record as consumed by the client. -/
structure OptionRec where
  _id : Nat
  text : String
  deriving Repr, DecidableEq

/-- The `Room` component's local state: one field per `useState` hook of the
source (lines 285-296), minus `shareLink` (browser-derived, see module
comment). -/
structure RoomViewState where
  loading : Bool
  room : Option RoomData
  options : List OptionRec
  optionText : String
  hasVoted : Bool
  selectedOptionId : Option Nat
  voteCasting : Bool
  votingClosing : Bool
  tiebreakerMethod : String
  tiedOptionIds : List Nat
  tiebreaking : Bool
  finalOptionText : Option String
  deriving Repr, DecidableEq

/-- A notification delivered through the toast sink. -/
inductive Toast where
  | error (msg : String)
  | success (msg : String)
  | info (msg : String)
  deriving Repr, DecidableEq

/-- A network request issued through the `api` axios instance. -/
inductive ApiCall where
  | getRoom (code : String)
  | postJoin (roomCode : String)
  | postOption (roomId : Nat) (text : String)
  | postOpenVoting (roomId : Nat)
  | postVote (roomId : Nat) (optionId : Nat)
  | postCloseVoting (roomId : Nat)
  | postTiebreaker (roomId : Nat) (method : String) (tiedOptionIds : List Nat)
  deriving Repr, DecidableEq

/-- Body of a successful `GET /rooms/code/\x7bcode\x7d` response. -/
structure LoadResponse where
  room : RoomData
  options : List OptionRec
  hasVoted : Bool
  deriving Repr, DecidableEq

/-- Result of running one operation of the `Room` component: the state after
all of its `setX` calls have been applied, the toasts it emitted in order,
and the API calls it issued in order. -/
structure OpResult where
  state : RoomViewState
  toasts : List Toast
  calls : List ApiCall
  deriving Repr, DecidableEq

/-- State after `loadRoom` receives a successful response (source lines
304-315): `room`, `options`, `hasVoted` are replaced by the response's data;
`finalOptionText` is recomputed from the response: if
`data.room.finalDecision?.optionId` is present, it is the text of the
matching option of `data.options` (`found ? found.text : ''`), else null. -/
def applyLoadSuccess (s : RoomViewState) (d : LoadResponse) : RoomViewState :=
  { s with
    room := some d.room
    options := d.options
    hasVoted := d.hasVoted
    finalOptionText :=
      match d.room.finalDecision with
      | some fd =>
          some (match d.options.find? (fun o => o._id == fd.optionId) with
                | some found => found.text
                | none => "")
      | none => none
    loading := false }

/-- The `loadRoom` operation (source lines 302-320): one GET request; on
success the state is replaced atomically by `applyLoadSuccess`; on failure a
fixed generic toast is shown (the catch at lines 316-319 ignores the server's
message) and only `loading` is reset. -/
def loadRoom (roomCode : String) (s : RoomViewState)
    (resp : Except (Option String) LoadResponse) : OpResult :=
  match resp with
  | .ok d => ⟨applyLoadSuccess s d, [], [.getRoom roomCode]⟩
  | .error _ =>
      ⟨{ s with loading := false }, [.error "Failed to load room data"],
        [.getRoom roomCode]⟩

/-- The `submitOption` operation (source lines 335-345).  If the option text
is empty after trimming, the operation returns locally with a validation
toast and issues no request.  Otherwise it POSTs the trimmed text; on success
it shows a success toast, clears the input and runs `loadRoom`; on failure it
shows the server's message, falling back to a generic one.  The result is
`none` exactly when the source would throw: the guard passed but `room` is
null, so `room._id` faults. -/
def submitOption (roomCode : String) (s : RoomViewState)
    (resp : Except (Option String) Unit)
    (loadResp : Except (Option String) LoadResponse) : Option OpResult :=
  if jsTrim s.optionText = "" then
    some ⟨s, [.error "Enter option text"], []⟩
  else
    match s.room with
    | none => none
    | some r =>
        match resp with
        | .ok _ =>
            let lr := loadRoom roomCode { s with optionText := "" } loadResp
            some ⟨lr.state, .success "Option added!" :: lr.toasts,
              .postOption r._id (jsTrim s.optionText) :: lr.calls⟩
        | .error m =>
            some ⟨s, [.error (m.getD "Failed to add option")],
              [.postOption r._id (jsTrim s.optionText)]⟩

/-- The `openVoting` operation (source lines 348-357): no-op when `room` is
null; otherwise POSTs, and on success toasts and resynchronizes via
`loadRoom`; on failure shows the server message or a generic fallback. -/
def openVoting (roomCode : String) (s : RoomViewState)
    (resp : Except (Option String) Unit)
    (loadResp : Except (Option String) LoadResponse) : OpResult :=
  match s.room with
  | none => ⟨s, [], []⟩
  | some r =>
      match resp with
      | .ok _ =>
          let lr := loadRoom roomCode s loadResp
          ⟨lr.state, .success "Voting opened!" :: lr.toasts,
            .postOpenVoting r._id :: lr.calls⟩
      | .error m =>
          ⟨s, [.error (m.getD "Failed to open voting")], [.postOpenVoting r._id]⟩

/-- The `vote` operation (source lines 360-373).  With no selected option it
returns locally with a validation toast and no request.  Otherwise it POSTs
the vote; only on success is `hasVoted` set to true, after which `loadRoom`
resynchronizes; on failure `hasVoted` is untouched.  `voteCasting` is set for
the duration of the request and reset in the `finally`, so it is false in
every result state.  `none` models the null-`room` fault on `room._id`. -/
def vote (roomCode : String) (s : RoomViewState)
    (resp : Except (Option String) Unit)
    (loadResp : Except (Option String) LoadResponse) : Option OpResult :=
  match s.selectedOptionId with
  | none => some ⟨s, [.error "Select an option to vote"], []⟩
  | some oid =>
      match s.room with
      | none => none
      | some r =>
          match resp with
          | .ok _ =>
              let lr := loadRoom roomCode
                { s with voteCasting := true, hasVoted := true } loadResp
              some ⟨{ lr.state with voteCasting := false },
                .success "Vote cast!" :: lr.toasts,
                .postVote r._id oid :: lr.calls⟩
          | .error m =>
              some ⟨{ s with voteCasting := false },
                [.error (m.getD "Failed to vote")], [.postVote r._id oid]⟩

/-- Body of a successful `POST /rooms/\x7bid\x7d/close-voting` response. -/
structure CloseVotingResponse where
  tie : Bool
  tiedOptionIds : List Nat
  deriving Repr, DecidableEq

/-- State change of `closeVoting`'s tie branch (source lines 382-384): the
returned tied option ids are stored; nothing else of the view state changes
(in particular `room`, `finalOptionText` and `votingClosing` — the latter is
reset by the `finally`). -/
def applyCloseTie (s : RoomViewState) (d : CloseVotingResponse) : RoomViewState :=
  { s with tiedOptionIds := d.tiedOptionIds, votingClosing := false }

/-- The `closeVoting` operation (source lines 376-394): no-op when `room` is
null.  On success: if the server reports a tie, the tied ids are stored and no
resynchronization happens; otherwise `loadRoom` resynchronizes.  Neither
branch writes `tiedOptionIds := []`.  On failure the server message (or a
generic fallback) is toasted.  `votingClosing` is reset in the `finally`. -/
def closeVoting (roomCode : String) (s : RoomViewState)
    (resp : Except (Option String) CloseVotingResponse)
    (loadResp : Except (Option String) LoadResponse) : OpResult :=
  match s.room with
  | none => ⟨s, [], []⟩
  | some r =>
      match resp with
      | .ok d =>
          if d.tie then
            ⟨applyCloseTie s d,
              [.success "Voting closed!",
               .info "It\x27s a tie! Please choose a tiebreaker."],
              [.postCloseVoting r._id]⟩
          else
            let lr := loadRoom roomCode { s with votingClosing := true } loadResp
            ⟨{ lr.state with votingClosing := false },
              .success "Voting closed!" :: .info "Decision made!" :: lr.toasts,
              .postCloseVoting r._id :: lr.calls⟩
      | .error m =>
          ⟨{ s with votingClosing := false },
            [.error (m.getD "Failed to close voting")], [.postCloseVoting r._id]⟩

/-- Body of a successful `POST /rooms/\x7bid\x7d/tiebreaker` response. -/
structure TiebreakerResponse where
  winnerOptionId : Nat
  deriving Repr, DecidableEq

/-- JS `x || dflt` for `x` an optional string: the default is used when `x`
is undefined or the empty string (both falsy). -/
def jsOrDefault (x : Option String) (dflt : String) : String :=
  match x with
  | some t => if t = "" then dflt else t
  | none => dflt

/-- State change of `triggerTiebreaker`'s success path before the trailing
resynchronization (source lines 403-406): the displayed final text is
`winnerOpt?.text || 'Unknown'` where `winnerOpt` is looked up in the
already-loaded option list, and the tied ids are cleared. -/
def applyTiebreakerSuccess (s : RoomViewState) (d : TiebreakerResponse) :
    RoomViewState :=
  { s with
    finalOptionText :=
      some (jsOrDefault
        ((s.options.find? (fun o => o._id == d.winnerOptionId)).map OptionRec.text)
        "Unknown")
    tiedOptionIds := [] }

/-- The `triggerTiebreaker` operation (source lines 397-414): no-op when
`room` is null.  POSTs the method together with the currently stored tied
ids; on success applies `applyTiebreakerSuccess` and then resynchronizes via
`loadRoom`; on failure the server message (or a generic fallback) is toasted.
`tiebreaking` and `tiebreakerMethod` are reset in the `finally`. -/
def triggerTiebreaker (roomCode : String) (method : String) (s : RoomViewState)
    (resp : Except (Option String) TiebreakerResponse)
    (loadResp : Except (Option String) LoadResponse) : OpResult :=
  match s.room with
  | none => ⟨s, [], []⟩
  | some r =>
      match resp with
      | .ok d =>
          let s1 := applyTiebreakerSuccess
            { s with tiebreaking := true, tiebreakerMethod := method } d
          let lr := loadRoom roomCode s1 loadResp
          ⟨{ lr.state with tiebreaking := false, tiebreakerMethod := "" },
            .success (method ++ " tiebreaker done! Winner: " ++
              jsOrDefault
                ((s.options.find? (fun o => o._id == d.winnerOptionId)).map
                  OptionRec.text) "N/A") :: lr.toasts,
            .postTiebreaker r._id method s.tiedOptionIds :: lr.calls⟩
      | .error m =>
          ⟨{ s with tiebreaking := false, tiebreakerMethod := "" },
            [.error (m.getD "Failed to trigger tiebreaker")],
            [.postTiebreaker r._id method s.tiedOptionIds]⟩

/-- Result of a `Home`-page action: toasts, API calls, and the navigation
target if `navigate` was called. -/
structure HomeOpResult where
  toasts : List Toast
  calls : List ApiCall
  nav : Option String
  deriving Repr, DecidableEq

/-- The `joinRoom` handler of the `Home` page (source lines 216-226): the
entered code is trimmed; if empty, a validation toast and no request.
Otherwise the upper-cased code is POSTed to the join endpoint and, on
success, navigation goes to `/room/` followed by the same upper-cased code;
on failure the server message (or a generic fallback) is toasted. -/
def joinRoom (input : String) (resp : Except (Option String) Unit) :
    HomeOpResult :=
  let code := jsTrim input
  if code = "" then ⟨[.error "Enter room code"], [], none⟩
  else
    match resp with
    | .ok _ =>
        ⟨[.success "Joined room! Redirecting..."], [.postJoin (jsToUpper code)],
          some ("/room/" ++ jsToUpper code)⟩
    | .error m =>
        ⟨[.error (m.getD "Failed to join room")], [.postJoin (jsToUpper code)], none⟩

/-- The derived creator flag (source line 299):
`room?.creatorId === auth.email || false`.  `authEmail` is `auth.email`,
which is null until the profile effect runs. -/
def isCreator (authEmail : Option String) (s : RoomViewState) : Bool :=
  match s.room, authEmail with
  | some r, some e => r.creatorId == e
  | _, _ => false

/-- JS truthiness of the `finalOptionText` state value: it is a string or
null, and the falsy strings are exactly the empty one. -/
def jsTruthyStr : Option String → Bool
  | some t => t != ""
  | none => false

/-- Whether the main room markup is rendered at all: the component returns
early on `loading` and on null `room` (source lines 416-417). -/
def rendersMain (s : RoomViewState) : Bool :=
  !s.loading && s.room.isSome

/-- Whether the option-submission section (input plus Add Option button,
hence the `submitOption` action) is rendered: main markup shown and
`!room.votingOpen && !hasVoted` (source line 428). -/
def rendersSubmitSection (s : RoomViewState) : Bool :=
  rendersMain s &&
    (match s.room with
     | some r => !r.votingOpen && !s.hasVoted
     | none => false)

/-- Whether the Vote button (the `castVote` action) is rendered: main markup
shown and `room.votingOpen && !hasVoted` (source line 469). -/
def rendersVoteButton (s : RoomViewState) : Bool :=
  rendersMain s &&
    (match s.room with
     | some r => r.votingOpen && !s.hasVoted
     | none => false)

/-- Whether the Open Voting button is rendered:
`isCreator && !room.votingOpen && options.length > 0` (source line 475). -/
def rendersOpenVotingButton (authEmail : Option String) (s : RoomViewState) :
    Bool :=
  rendersMain s &&
    (match s.room with
     | some r => isCreator authEmail s && !r.votingOpen && !s.options.isEmpty
     | none => false)

/-- Whether the Close Voting button is rendered:
`isCreator && room.votingOpen` (source line 481). -/
def rendersCloseVotingButton (authEmail : Option String) (s : RoomViewState) :
    Bool :=
  rendersMain s &&
    (match s.room with
     | some r => isCreator authEmail s && r.votingOpen
     | none => false)

/-- Whether the final-decision banner is rendered: `finalOptionText &&`
(source line 487), a JS truthiness test. -/
def rendersFinalBanner (s : RoomViewState) : Bool :=
  rendersMain s && jsTruthyStr s.finalOptionText

/-- Whether the tiebreaker prompt is rendered:
`isCreator && tiedOptionIds.length > 0 && !finalOptionText`
(source line 493); the last conjunct is a JS truthiness test. -/
def rendersTiebreakerPrompt (authEmail : Option String) (s : RoomViewState) :
    Bool :=
  rendersMain s &&
    (isCreator authEmail s && !s.tiedOptionIds.isEmpty &&
      !jsTruthyStr s.finalOptionText)

/-- Mount status of one `Room` view instance. -/
inductive ViewMountState where
  | unmounted
  | mounted (s : RoomViewState)
  deriving Repr, DecidableEq

/-- The polling period passed to `setInterval` (source line 330). -/
def pollIntervalMs : Nat := 5000

/-- Number of pending poll interval timers once React has committed a render
and synchronized the polling effect of source lines 328-332.  The effect's
dependencies include `room`, whose identity changes on every `setRoom`, so
after any state application React runs the previous cleanup (`clearInterval`)
and then the body, which arms one interval exactly when `room` is non-null
with `votingOpen` true; unmounting runs only the cleanup. -/
def pollTimers : ViewMountState → Nat
  | .unmounted => 0
  | .mounted s =>
      match s.room with
      | some r => if r.votingOpen then 1 else 0
      | none => 0

/-- One event of the `Room` view after the initial load: each operation the
user or the poll timer can fire, together with the server's responses to the
requests it issues. -/
inductive RoomEv where
  | load (resp : Except (Option String) LoadResponse)
  | submit (resp : Except (Option String) Unit)
      (loadResp : Except (Option String) LoadResponse)
  | openV (resp : Except (Option String) Unit)
      (loadResp : Except (Option String) LoadResponse)
  | castV (resp : Except (Option String) Unit)
      (loadResp : Except (Option String) LoadResponse)
  | closeV (resp : Except (Option String) CloseVotingResponse)
      (loadResp : Except (Option String) LoadResponse)
  | tiebreak (method : String) (resp : Except (Option String) TiebreakerResponse)
      (loadResp : Except (Option String) LoadResponse)

/-- State reached by one event (`none` models a thrown TypeError). -/
def stepEv (roomCode : String) (s : RoomViewState) : RoomEv → Option RoomViewState
  | .load resp => some (loadRoom roomCode s resp).state
  | .submit resp loadResp =>
      (submitOption roomCode s resp loadResp).map OpResult.state
  | .openV resp loadResp => some (openVoting roomCode s resp loadResp).state
  | .castV resp loadResp => (vote roomCode s resp loadResp).map OpResult.state
  | .closeV resp loadResp => some (closeVoting roomCode s resp loadResp).state
  | .tiebreak method resp loadResp =>
      some (triggerTiebreaker roomCode method s resp loadResp).state

/-- State reached by a sequence of events. -/
def runEvents (roomCode : String) (s : RoomViewState) :
    List RoomEv → Option RoomViewState
  | [] => some s
  | e :: es =>
      match stepEv roomCode s e with
      | some s1 => runEvents roomCode s1 es
      | none => none

/-- A load response carries no final decision (the server has not resolved
the room yet). -/
def noFinalLoad : Except (Option String) LoadResponse → Bool
  | .ok d => d.room.finalDecision.isNone
  | .error _ => true

/-- An event is tie-safe when it is not a successful tiebreaker and every
load response it carries reports no final decision — the situation between a
tie-reporting close and the tiebreaker's resolution. -/
def tieSafeEv : RoomEv → Bool
  | .load resp => noFinalLoad resp
  | .submit _ loadResp => noFinalLoad loadResp
  | .openV _ loadResp => noFinalLoad loadResp
  | .castV _ loadResp => noFinalLoad loadResp
  | .closeV _ loadResp => noFinalLoad loadResp
  | .tiebreak _ resp _ =>
      match resp with
      | .ok _ => false
      | .error _ => true

/-! Concrete sample data used by witnesses and counterexamples. -/

/-- A room with voting open. -/
def roomOpenRec : RoomData := ⟨1, "You", "Dinner", "", true, none⟩

/-- The same room with voting closed and no final decision. -/
def roomClosedRec : RoomData := ⟨1, "You", "Dinner", "", false, none⟩

/-- The `useState` initial values of the `Room` component (source lines
285-296). -/
def initState : RoomViewState :=
  ⟨true, none, [], "", false, none, false, false, "", [], false, none⟩

/-- Two submitted options. -/
def pizzaSushi : List OptionRec := [⟨1, "Pizza"⟩, ⟨2, "Sushi"⟩]

/-- A loaded view of an open-voting room, not yet voted, option 1 selected. -/
def votingOpenState : RoomViewState :=
  ⟨false, some roomOpenRec, pizzaSushi, "", false, some 1, false, false, "",
    [], false, none⟩

/-- A loaded view of a closed room where this participant has voted. -/
def closedVotedState : RoomViewState :=
  ⟨false, some roomClosedRec, pizzaSushi, "", true, none, false, false, "",
    [], false, none⟩

/-- A loaded view of a closed room, not voted, option text typed. -/
def closedFreshState : RoomViewState :=
  ⟨false, some roomClosedRec, pizzaSushi, "Tacos", false, none, false, false,
    "", [], false, none⟩

/-- A view just after a tie-reporting close: room still open locally, tied
ids stored, no final text. -/
def tiedCloseState : RoomViewState :=
  ⟨false, some roomOpenRec, pizzaSushi, "", true, none, false, false, "",
    [1, 2], false, none⟩

/-- A view whose final text resolved to the empty string (decision present
but its option id absent from the fetched list). -/
def emptyFinalState : RoomViewState :=
  ⟨false, some roomClosedRec, [⟨1, "Pizza"⟩], "", true, none, false, false,
    "", [1, 2], false, some ""⟩

/-- A load response whose final decision references option id 5, absent from
the fetched option list. -/
def missingOptLoad : LoadResponse :=
  ⟨⟨1, "You", "Dinner", "", false, some ⟨5⟩⟩, [⟨1, "Pizza"⟩], true⟩

/-- A load response whose final decision resolves to the "Pizza" option. -/
def decidedLoad : LoadResponse :=
  ⟨⟨1, "You", "Dinner", "", false, some ⟨1⟩⟩, pizzaSushi, true⟩

/-- A load response for a closed, undecided room. -/
def undecidedLoad : LoadResponse := ⟨roomClosedRec, pizzaSushi, true⟩

/-! Helper lemmas shared between claims. -/

/-- `loadRoom` issues exactly one GET, whatever the outcome. -/
theorem loadRoom_calls (rc : String) (s : RoomViewState)
    (resp : Except (Option String) LoadResponse) :
    (loadRoom rc s resp).calls = [.getRoom rc] := by
  cases resp <;> rfl

/-- `loadRoom` never changes the stored tied option ids. -/
theorem loadRoom_tied (rc : String) (s : RoomViewState)
    (resp : Except (Option String) LoadResponse) :
    (loadRoom rc s resp).state.tiedOptionIds = s.tiedOptionIds := by
  cases resp <;> rfl

/-- A null final text survives `loadRoom` whenever the response carries no
final decision. -/
theorem loadRoom_noFinal (rc : String) (s : RoomViewState)
    (resp : Except (Option String) LoadResponse)
    (hs : s.finalOptionText = none) (h : noFinalLoad resp = true) :
    (loadRoom rc s resp).state.finalOptionText = none := by
  cases resp with
  | error m => simpa [loadRoom] using hs
  | ok d =>
      simp only [noFinalLoad, Option.isNone_iff_eq_none] at h
      simp [loadRoom, applyLoadSuccess, h]

/-! Claim theorems. -/

/-- C9: `submitOption` with text empty after trimming is rejected locally —
no API call, a validation toast, state untouched; with non-empty trimmed
text it POSTs the trimmed text to the options endpoint and then performs a
resynchronizing load. -/
theorem c9_submitOption_validates (rc : String) (s : RoomViewState)
    (resp : Except (Option String) Unit)
    (ld : Except (Option String) LoadResponse) :
    (jsTrim s.optionText = "" →
      submitOption rc s resp ld = some ⟨s, [.error "Enter option text"], []⟩)
    ∧ (∀ r, jsTrim s.optionText ≠ "" → s.room = some r →
        (submitOption rc s (.ok ()) ld).map OpResult.calls =
          some [.postOption r._id (jsTrim s.optionText), .getRoom rc]) := by
  constructor
  · intro h
    simp [submitOption, h]
  · intro r hne hr
    simp [submitOption, hne, hr, loadRoom_calls]

/-- Witness for C9 at concrete inputs: empty text is rejected with no call,
and the text "Tacos" produces the POST followed by the reload GET. -/
theorem c9_submitOption_validates_witness :
    submitOption "AB" closedVotedState (.ok ()) (.error none) =
      some ⟨closedVotedState, [.error "Enter option text"], []⟩
    ∧ (submitOption "AB" closedFreshState (.ok ()) (.error none)).map
        OpResult.calls = some [.postOption 1 "Tacos", .getRoom "AB"] := by
  constructor
  · exact (c9_submitOption_validates "AB" closedVotedState (.ok ())
      (.error none)).1 (by decide)
  · simpa using (c9_submitOption_validates "AB" closedFreshState (.ok ())
      (.error none)).2 roomClosedRec (by decide) rfl

/-- C8: `vote` with no selected option is rejected locally — no API call, a
validation toast, state untouched.  With a selection the vote is POSTed; on
failure `hasVoted` is unchanged (so it is never set before the server
acknowledges) and no reload happens; on success a resynchronizing load
follows, and if that reload itself fails the state still shows
`hasVoted = true`, set on acknowledgment. -/
theorem c8_vote_after_ack (rc : String) (s : RoomViewState)
    (ld : Except (Option String) LoadResponse) :
    (∀ resp, s.selectedOptionId = none →
      vote rc s resp ld = some ⟨s, [.error "Select an option to vote"], []⟩)
    ∧ (∀ oid r m, s.selectedOptionId = some oid → s.room = some r →
        (vote rc s (.error m) ld).map (fun x => x.state.hasVoted) =
            some s.hasVoted
        ∧ (vote rc s (.error m) ld).map OpResult.calls =
            some [.postVote r._id oid])
    ∧ (∀ oid r, s.selectedOptionId = some oid → s.room = some r →
        (vote rc s (.ok ()) ld).map OpResult.calls =
          some [.postVote r._id oid, .getRoom rc]
        ∧ (∀ m, ld = .error m →
            (vote rc s (.ok ()) ld).map (fun x => x.state.hasVoted) =
              some true)) := by
  refine ⟨?_, ?_, ?_⟩
  · intro resp h
    simp [vote, h]
  · intro oid r m hsel hr
    constructor <;> simp [vote, hsel, hr]
  · intro oid r hsel hr
    constructor
    · simp [vote, hsel, hr, loadRoom_calls]
    · intro m hld
      subst hld
      simp [vote, hsel, hr, loadRoom]

/-- Witness for C8 at concrete inputs: no selection rejects locally; a failed
vote leaves `hasVoted` false; a successful vote whose reload fails leaves
`hasVoted` true after exactly the vote POST and reload GET. -/
theorem c8_vote_after_ack_witness :
    vote "AB" closedFreshState (.ok ()) (.error none) =
      some ⟨closedFreshState, [.error "Select an option to vote"], []⟩
    ∧ (vote "AB" votingOpenState (.error (some "nope")) (.error none)).map
        (fun x => x.state.hasVoted) = some false
    ∧ (vote "AB" votingOpenState (.ok ()) (.error none)).map OpResult.calls =
        some [.postVote 1 1, .getRoom "AB"]
    ∧ (vote "AB" votingOpenState (.ok ()) (.error none)).map
        (fun x => x.state.hasVoted) = some true := by
  refine ⟨?_, ?_, ?_, ?_⟩
  · exact (c8_vote_after_ack "AB" closedFreshState (.error none)).1
      (.ok ()) rfl
  · simpa using ((c8_vote_after_ack "AB" votingOpenState (.error none)).2.1
      1 roomOpenRec (some "nope") rfl rfl).1
  · simpa using ((c8_vote_after_ack "AB" votingOpenState (.error none)).2.2
      1 roomOpenRec rfl rfl).1
  · simpa using ((c8_vote_after_ack "AB" votingOpenState (.error none)).2.2
      1 roomOpenRec rfl rfl).2 none rfl

/-- C10: `joinRoom` trims the entered code; an empty result is rejected
locally with an error toast, no API call and no navigation; otherwise the
upper-cased code is POSTed to the join endpoint and, on success, navigation
targets the room route built from the same upper-cased code. -/
theorem c10_joinRoom_normalizes (input : String)
    (resp : Except (Option String) Unit) :
    (jsTrim input = "" →
      joinRoom input resp = ⟨[.error "Enter room code"], [], none⟩)
    ∧ (jsTrim input ≠ "" →
        (joinRoom input resp).calls = [.postJoin (jsToUpper (jsTrim input))]
        ∧ ∀ u, resp = .ok u →
            (joinRoom input resp).nav =
              some ("/room/" ++ jsToUpper (jsTrim input))) := by
  constructor
  · intro h
    simp [joinRoom, h]
  · intro h
    constructor
    · cases resp <;> simp [joinRoom, h]
    · intro u hr
      subst hr
      simp [joinRoom, h]

/-- C1 fails as stated: in a room with `votingOpen = false` where this
participant has voted, the option-submission section is not rendered — the
source's condition (line 428) also requires `!hasVoted`. -/
theorem c1_counterexample :
    closedVotedState.room = some roomClosedRec
    ∧ roomClosedRec.votingOpen = false
    ∧ closedVotedState.loading = false
    ∧ rendersSubmitSection closedVotedState = false := by decide

/-- C1 amended: for a loaded room with `votingOpen = false`, the
option-submission action is offered exactly when the view is not loading and
the participant has not voted, and the vote action is never offered. -/
theorem c1_amended (s : RoomViewState) (r : RoomData) (hr : s.room = some r)
    (h : r.votingOpen = false) :
    rendersSubmitSection s = (!s.loading && !s.hasVoted)
    ∧ rendersVoteButton s = false := by
  constructor <;>
    simp [rendersSubmitSection, rendersVoteButton, rendersMain, hr, h]

/-- Witness for C1 amended at a concrete closed room: the submission section
is offered to a participant who has not voted, and the vote button is not. -/
theorem c1_amended_witness :
    rendersSubmitSection closedFreshState =
      (!closedFreshState.loading && !closedFreshState.hasVoted)
    ∧ rendersVoteButton closedFreshState = false :=
  c1_amended closedFreshState roomClosedRec rfl rfl

/-- C2 fails as stated: a no-tie `closeVoting` does not clear a previously
stored TieState — the tied ids survive the resynchronization. -/
theorem c2_counterexample :
    (closeVoting "AB" tiedCloseState (.ok ⟨false, []⟩)
        (.ok ⟨roomClosedRec, pizzaSushi, true⟩)).state.tiedOptionIds = [1, 2]
    ∧ ([1, 2] : List Nat) ≠ [] := by decide

/-- C2 amended: on a no-tie close the controller resynchronizes via load
(the GET is issued and the fresh room is applied) but leaves TieState
unchanged rather than clearing it; on a tie the returned ids are stored, the
final-decision display is untouched, and no resynchronization happens (the
close POST is the only request). -/
theorem c2_amended (rc : String) (s : RoomViewState) (r : RoomData)
    (d : CloseVotingResponse) (ld : Except (Option String) LoadResponse)
    (hr : s.room = some r) :
    (d.tie = false →
      (closeVoting rc s (.ok d) ld).state.tiedOptionIds = s.tiedOptionIds
      ∧ ApiCall.getRoom rc ∈ (closeVoting rc s (.ok d) ld).calls
      ∧ ∀ dd, ld = .ok dd →
          (closeVoting rc s (.ok d) ld).state.room = some dd.room)
    ∧ (d.tie = true →
      (closeVoting rc s (.ok d) ld).state = applyCloseTie s d
      ∧ (closeVoting rc s (.ok d) ld).state.finalOptionText =
          s.finalOptionText
      ∧ (closeVoting rc s (.ok d) ld).calls = [.postCloseVoting r._id]) := by
  constructor
  · intro h
    refine ⟨?_, ?_, ?_⟩
    · cases ld <;> simp [closeVoting, hr, h, loadRoom, applyLoadSuccess]
    · cases ld <;> simp [closeVoting, hr, h, loadRoom]
    · intro dd hld
      subst hld
      simp [closeVoting, hr, h, loadRoom, applyLoadSuccess]
  · intro h
    refine ⟨?_, ?_, ?_⟩ <;> simp [closeVoting, hr, h, applyCloseTie]

/-- Witness for C2 amended at concrete inputs: a no-tie close applies the
freshly loaded room and issues the reload GET; a tie close stores the tied
ids. -/
theorem c2_amended_witness :
    (closeVoting "AB" tiedCloseState (.ok ⟨false, []⟩)
        (.ok ⟨roomClosedRec, pizzaSushi, true⟩)).state.room =
      some roomClosedRec
    ∧ ApiCall.getRoom "AB" ∈ (closeVoting "AB" tiedCloseState (.ok ⟨false, []⟩)
        (.ok ⟨roomClosedRec, pizzaSushi, true⟩)).calls
    ∧ (closeVoting "AB" votingOpenState (.ok ⟨true, [1, 2]⟩)
        (.error none)).state = applyCloseTie votingOpenState ⟨true, [1, 2]⟩ := by
  refine ⟨?_, ?_, ?_⟩
  · exact ((c2_amended "AB" tiedCloseState roomOpenRec ⟨false, []⟩
      (.ok ⟨roomClosedRec, pizzaSushi, true⟩) rfl).1 rfl).2.2
      ⟨roomClosedRec, pizzaSushi, true⟩ rfl
  · exact ((c2_amended "AB" tiedCloseState roomOpenRec ⟨false, []⟩
      (.ok ⟨roomClosedRec, pizzaSushi, true⟩) rfl).1 rfl).2.1
  · exact ((c2_amended "AB" votingOpenState roomOpenRec ⟨true, [1, 2]⟩
      (.error none) rfl).2 rfl).1

/-- C3 fails as stated: a successful explicit close that reports a tie does
not stop polling — the tie branch skips the reload, the local room still has
`votingOpen = true`, and one interval timer remains pending. -/
theorem c3_counterexample :
    (closeVoting "AB" votingOpenState (.ok ⟨true, [1, 2]⟩)
        (.error none)).calls = [.postCloseVoting 1]
    ∧ pollTimers (.mounted (closeVoting "AB" votingOpenState
        (.ok ⟨true, [1, 2]⟩) (.error none)).state) = 1 := by decide

/-- C3 amended: the poll interval is fixed at 5000 ms; at most one timer
exists per view and none once unmounted; the timer is gone as soon as the
locally held room has `votingOpen = false` — in particular after any load
that applies a closed room, and after an explicit close whose no-tie outcome
reloads the closed room.  An explicit close that reports a tie leaves the
local room (hence polling) unchanged until a later load observes closure. -/
theorem c3_amended (rc : String) (s : RoomViewState) :
    pollIntervalMs = 5000
    ∧ (∀ v, pollTimers v ≤ 1)
    ∧ pollTimers .unmounted = 0
    ∧ (∀ r, s.room = some r → r.votingOpen = false →
        pollTimers (.mounted s) = 0)
    ∧ (∀ d, d.room.votingOpen = false →
        pollTimers (.mounted (loadRoom rc s (.ok d)).state) = 0)
    ∧ (∀ d dd, d.tie = false → dd.room.votingOpen = false →
        pollTimers (.mounted (closeVoting rc s (.ok d) (.ok dd)).state) = 0)
    ∧ (∀ d ld, d.tie = true →
        (closeVoting rc s (.ok d) ld).state.room = s.room) := by
  refine ⟨rfl, ?_, rfl, ?_, ?_, ?_, ?_⟩
  · intro v
    cases v with
    | unmounted => simp [pollTimers]
    | mounted t =>
        cases h : t.room with
        | none => simp [pollTimers, h]
        | some r => cases hr : r.votingOpen <;> simp [pollTimers, h, hr]
  · intro r hr h
    simp [pollTimers, hr, h]
  · intro d h
    simp [pollTimers, loadRoom, applyLoadSuccess, h]
  · intro d dd h1 h2
    cases hroom : s.room with
    | none => simp [closeVoting, hroom, pollTimers]
    | some r =>
        simp [closeVoting, hroom, h1, loadRoom, applyLoadSuccess,
          pollTimers, h2]
  · intro d ld h
    cases hroom : s.room with
    | none => simp [closeVoting, hroom]
    | some r => simp [closeVoting, hroom, h, applyCloseTie]

/-- Witness for C3 amended at concrete inputs: a loaded closed room has no
pending timer; a load observing closure cancels it; a no-tie close whose
reload returns the closed room cancels it; a tie close keeps the local room. -/
theorem c3_amended_witness :
    pollTimers (.mounted closedVotedState) = 0
    ∧ pollTimers (.mounted (loadRoom "AB" votingOpenState
        (.ok undecidedLoad)).state) = 0
    ∧ pollTimers (.mounted (closeVoting "AB" votingOpenState
        (.ok ⟨false, []⟩) (.ok undecidedLoad)).state) = 0
    ∧ (closeVoting "AB" votingOpenState (.ok ⟨true, [1, 2]⟩)
        (.error none)).state.room = votingOpenState.room := by
  refine ⟨?_, ?_, ?_, ?_⟩
  · exact (c3_amended "AB" closedVotedState).2.2.2.1 roomClosedRec rfl rfl
  · have h : undecidedLoad.room.votingOpen = false := by decide
    exact (c3_amended "AB" votingOpenState).2.2.2.2.1 undecidedLoad h
  · have h : undecidedLoad.room.votingOpen = false := by decide
    exact (c3_amended "AB" votingOpenState).2.2.2.2.2.1 ⟨false, []⟩
      undecidedLoad rfl h
  · exact (c3_amended "AB" votingOpenState).2.2.2.2.2.2 ⟨true, [1, 2]⟩
      (.error none) rfl

/-- A single tie-safe event preserves a null final text. -/
theorem stepEv_noFinal (rc : String) (s s1 : RoomViewState) (e : RoomEv)
    (hs : s.finalOptionText = none) (he : tieSafeEv e = true)
    (h : stepEv rc s e = some s1) : s1.finalOptionText = none := by
  cases e with
  | load resp =>
      simp only [stepEv, Option.some.injEq] at h
      exact h ▸ loadRoom_noFinal rc s resp hs he
  | submit resp ld =>
      simp only [tieSafeEv] at he
      by_cases hopt : jsTrim s.optionText = ""
      · simp only [stepEv, submitOption, if_pos hopt, Option.map_some',
          Option.some.injEq] at h
        exact h ▸ hs
      · cases hroom : s.room with
        | none => simp [stepEv, submitOption, hopt, hroom] at h
        | some r =>
            cases resp with
            | ok u =>
                simp only [stepEv, submitOption, if_neg hopt, hroom,
                  Option.map_some', Option.some.injEq] at h
                exact h ▸ loadRoom_noFinal rc _ ld hs he
            | error m =>
                simp only [stepEv, submitOption, if_neg hopt, hroom,
                  Option.map_some', Option.some.injEq] at h
                exact h ▸ hs
  | openV resp ld =>
      simp only [tieSafeEv] at he
      cases hroom : s.room with
      | none =>
          simp only [stepEv, openVoting, hroom, Option.some.injEq] at h
          exact h ▸ hs
      | some r =>
          cases resp with
          | ok u =>
              simp only [stepEv, openVoting, hroom, Option.some.injEq] at h
              exact h ▸ loadRoom_noFinal rc s ld hs he
          | error m =>
              simp only [stepEv, openVoting, hroom, Option.some.injEq] at h
              exact h ▸ hs
  | castV resp ld =>
      simp only [tieSafeEv] at he
      cases hsel : s.selectedOptionId with
      | none =>
          simp only [stepEv, vote, hsel, Option.map_some',
            Option.some.injEq] at h
          exact h ▸ hs
      | some oid =>
          cases hroom : s.room with
          | none => simp [stepEv, vote, hsel, hroom] at h
          | some r =>
              cases resp with
              | ok u =>
                  simp only [stepEv, vote, hsel, hroom, Option.map_some',
                    Option.some.injEq] at h
                  exact h ▸ loadRoom_noFinal rc _ ld hs he
              | error m =>
                  simp only [stepEv, vote, hsel, hroom, Option.map_some',
                    Option.some.injEq] at h
                  exact h ▸ hs
  | closeV resp ld =>
      simp only [tieSafeEv] at he
      cases hroom : s.room with
      | none =>
          simp only [stepEv, closeVoting, hroom, Option.some.injEq] at h
          exact h ▸ hs
      | some r =>
          cases resp with
          | ok d =>
              cases htie : d.tie with
              | true =>
                  simp only [stepEv, closeVoting, hroom, htie, if_pos,
                    Option.some.injEq] at h
                  exact h ▸ hs
              | false =>
                  simp only [stepEv, closeVoting, hroom, htie,
                    Bool.false_eq_true, if_false, Option.some.injEq] at h
                  exact h ▸ loadRoom_noFinal rc _ ld hs he
          | error m =>
              simp only [stepEv, closeVoting, hroom, Option.some.injEq] at h
              exact h ▸ hs
  | tiebreak method resp ld =>
      simp only [tieSafeEv] at he
      cases resp with
      | ok d => simp at he
      | error m =>
          cases hroom : s.room with
          | none =>
              simp only [stepEv, triggerTiebreaker, hroom,
                Option.some.injEq] at h
              exact h ▸ hs
          | some r =>
              simp only [stepEv, triggerTiebreaker, hroom,
                Option.some.injEq] at h
              exact h ▸ hs

/-- A sequence of tie-safe events preserves a null final text. -/
theorem runEvents_noFinal (rc : String) (evs : List RoomEv) :
    ∀ s s1, s.finalOptionText = none → (∀ e ∈ evs, tieSafeEv e = true) →
      runEvents rc s evs = some s1 → s1.finalOptionText = none := by
  induction evs with
  | nil =>
      intro s s1 hs _ h
      simp only [runEvents, Option.some.injEq] at h
      exact h ▸ hs
  | cons e es ih =>
      intro s s1 hs hall h
      simp only [runEvents] at h
      cases hstep : stepEv rc s e with
      | none => rw [hstep] at h; cases h
      | some t =>
          rw [hstep] at h
          exact ih t s1 (stepEv_noFinal rc s t e hs (hall e (by simp)) hstep)
            (fun x hx => hall x (by simp [hx])) h

/-- C6: starting from a null final text, any sequence of events that contains
no successful tiebreaker and whose load responses carry no final decision
keeps the displayed final text null; a successful tiebreaker resolves the
winner's text from the already-loaded option list, clears the tied ids, and
the operation then resynchronizes via a load. -/
theorem c6_tie_suppression (rc method : String) :
    (∀ (s s1 : RoomViewState) (evs : List RoomEv), s.finalOptionText = none →
        (∀ e ∈ evs, tieSafeEv e = true) →
        runEvents rc s evs = some s1 → s1.finalOptionText = none)
    ∧ (∀ (s : RoomViewState) (r : RoomData) (d : TiebreakerResponse)
        (ld : Except (Option String) LoadResponse) (opt : OptionRec),
        s.options.find? (fun o => o._id == d.winnerOptionId) = some opt →
        opt.text ≠ "" →
        (applyTiebreakerSuccess s d).finalOptionText = some opt.text
        ∧ (applyTiebreakerSuccess s d).tiedOptionIds = []
        ∧ (s.room = some r →
            (triggerTiebreaker rc method s (.ok d) ld).state.tiedOptionIds = []
            ∧ ApiCall.getRoom rc ∈
                (triggerTiebreaker rc method s (.ok d) ld).calls)) := by
  constructor
  · exact fun s s1 evs => runEvents_noFinal rc evs s s1
  · intro s r d ld opt hfind htext
    refine ⟨?_, rfl, ?_⟩
    · simp [applyTiebreakerSuccess, hfind, jsOrDefault, htext]
    · intro hroom
      constructor
      · simp [triggerTiebreaker, hroom, loadRoom_tied, applyTiebreakerSuccess]
      · simp [triggerTiebreaker, hroom, loadRoom_calls]

/-- Witness for C6 at concrete inputs: a tie-reporting close keeps the final
text null, and a concrete coin tiebreaker won by option 1 displays "Pizza",
clears the tied ids, and issues the reload GET. -/
theorem c6_tie_suppression_witness :
    (applyCloseTie votingOpenState ⟨true, [1, 2]⟩).finalOptionText = none
    ∧ (applyTiebreakerSuccess tiedCloseState ⟨1⟩).finalOptionText =
        some "Pizza"
    ∧ (applyTiebreakerSuccess tiedCloseState ⟨1⟩).tiedOptionIds = []
    ∧ (triggerTiebreaker "AB" "coin" tiedCloseState (.ok ⟨1⟩)
        (.error none)).state.tiedOptionIds = []
    ∧ ApiCall.getRoom "AB" ∈ (triggerTiebreaker "AB" "coin" tiedCloseState
        (.ok ⟨1⟩) (.error none)).calls := by
  have h1 := (c6_tie_suppression "AB" "coin").1 votingOpenState
    (applyCloseTie votingOpenState ⟨true, [1, 2]⟩)
    [.closeV (.ok ⟨true, [1, 2]⟩) (.error none)] rfl (by decide) (by decide)
  have h2 := (c6_tie_suppression "AB" "coin").2 tiedCloseState roomOpenRec
    ⟨1⟩ (.error none) ⟨1, "Pizza"⟩ (by decide) (by decide)
  exact ⟨h1, by simpa using h2.1, h2.2.1, (h2.2.2 rfl).1, (h2.2.2 rfl).2⟩

/-- C4 fails as stated: the tiebreaker prompt is visible in a state whose
`finalOptionText` is not null — the empty string (produced by a load whose
final decision resolves to no option) is JS-falsy, and line 493 tests
truthiness, not null-ness. -/
theorem c4_counterexample :
    rendersTiebreakerPrompt (some "You") emptyFinalState = true
    ∧ emptyFinalState.finalOptionText ≠ none
    ∧ isCreator (some "You") emptyFinalState = true
    ∧ emptyFinalState.tiedOptionIds ≠ [] := by decide

/-- C4 amended: the Open Voting and Close Voting controls and the tiebreaker
prompt are rendered only when `isCreator` holds (so never for a non-creator,
whatever the server state), and for a loaded view the tiebreaker prompt is
visible exactly when `isCreator` holds, `tiedOptionIds` is non-empty, and
`finalOptionText` is JS-falsy — null or the empty string. -/
theorem c4_amended (e : Option String) (s : RoomViewState) :
    (rendersOpenVotingButton e s = true → isCreator e s = true)
    ∧ (rendersCloseVotingButton e s = true → isCreator e s = true)
    ∧ (rendersTiebreakerPrompt e s = true → isCreator e s = true)
    ∧ (isCreator e s = false →
        rendersOpenVotingButton e s = false
        ∧ rendersCloseVotingButton e s = false
        ∧ rendersTiebreakerPrompt e s = false)
    ∧ (s.loading = false →
        rendersTiebreakerPrompt e s =
          (isCreator e s && !s.tiedOptionIds.isEmpty &&
            !jsTruthyStr s.finalOptionText)) := by
  cases hroom : s.room with
  | none =>
      refine ⟨?_, ?_, ?_, ?_, ?_⟩ <;>
        simp [rendersOpenVotingButton, rendersCloseVotingButton,
          rendersTiebreakerPrompt, rendersMain, isCreator, hroom]
  | some r =>
      cases e with
      | none =>
          refine ⟨?_, ?_, ?_, ?_, ?_⟩ <;>
            simp [rendersOpenVotingButton, rendersCloseVotingButton,
              rendersTiebreakerPrompt, rendersMain, isCreator, hroom]
      | some em =>
          refine ⟨?_, ?_, ?_, ?_, ?_⟩ <;>
            intro h <;>
            simp_all [rendersOpenVotingButton, rendersCloseVotingButton,
              rendersTiebreakerPrompt, rendersMain, isCreator, hroom]

/-- Witness for C4 amended at concrete inputs: for a non-creator viewer of an
open-voting room neither voting control nor the prompt renders, and for a
loaded creator view the prompt's visibility equation holds. -/
theorem c4_amended_witness :
    (rendersOpenVotingButton (some "Bob") votingOpenState = false
      ∧ rendersCloseVotingButton (some "Bob") votingOpenState = false
      ∧ rendersTiebreakerPrompt (some "Bob") votingOpenState = false)
    ∧ rendersTiebreakerPrompt (some "You") tiedCloseState =
        (isCreator (some "You") tiedCloseState &&
          !tiedCloseState.tiedOptionIds.isEmpty &&
          !jsTruthyStr tiedCloseState.finalOptionText) := by
  constructor
  · exact (c4_amended (some "Bob") votingOpenState).2.2.2.1 (by decide)
  · exact (c4_amended (some "You") tiedCloseState).2.2.2.2 rfl

/-- C5 fails as stated: when a final decision is present but its option id is
not in the freshly fetched list, `loadRoom` sets `finalOptionText` to the
empty string — neither a resolved option's text nor null. -/
theorem c5_counterexample :
    missingOptLoad.room.finalDecision = some ⟨5⟩
    ∧ (loadRoom "AB" initState (.ok missingOptLoad)).state.finalOptionText =
        some ""
    ∧ (some "" : Option String) ≠ none
    ∧ missingOptLoad.options.all (fun o => o._id != 5) = true
    ∧ missingOptLoad.options.all (fun o => o.text != "") = true := by decide

/-- C5 amended: a successful load replaces `room`, `options` and `hasVoted`
atomically from the response; `finalOptionText` is recomputed against the
freshly fetched list (independently of any previously held state): the found
option's text when the final decision is present and resolvable, the empty
string when present but unresolvable, and null when absent. -/
theorem c5_amended (rc : String) (s s2 : RoomViewState) (d : LoadResponse) :
    (loadRoom rc s (.ok d)).state.room = some d.room
    ∧ (loadRoom rc s (.ok d)).state.options = d.options
    ∧ (loadRoom rc s (.ok d)).state.hasVoted = d.hasVoted
    ∧ (d.room.finalDecision = none →
        (loadRoom rc s (.ok d)).state.finalOptionText = none)
    ∧ (∀ fd opt, d.room.finalDecision = some fd →
        d.options.find? (fun o => o._id == fd.optionId) = some opt →
        (loadRoom rc s (.ok d)).state.finalOptionText = some opt.text)
    ∧ (∀ fd, d.room.finalDecision = some fd →
        d.options.find? (fun o => o._id == fd.optionId) = none →
        (loadRoom rc s (.ok d)).state.finalOptionText = some "")
    ∧ (loadRoom rc s (.ok d)).state.finalOptionText =
        (loadRoom rc s2 (.ok d)).state.finalOptionText := by
  refine ⟨rfl, rfl, rfl, ?_, ?_, ?_, rfl⟩
  · intro h
    simp [loadRoom, applyLoadSuccess, h]
  · intro fd opt hfd hfind
    simp [loadRoom, applyLoadSuccess, hfd, hfind]
  · intro fd hfd hfind
    simp [loadRoom, applyLoadSuccess, hfd, hfind]

/-- Witness for C5 amended at concrete responses: a resolvable decision
yields "Pizza", an undecided room yields null, an unresolvable decision
yields the empty string. -/
theorem c5_amended_witness :
    (loadRoom "AB" initState (.ok decidedLoad)).state.finalOptionText =
      some "Pizza"
    ∧ (loadRoom "AB" initState (.ok undecidedLoad)).state.finalOptionText =
        none
    ∧ (loadRoom "AB" initState (.ok missingOptLoad)).state.finalOptionText =
        some "" := by
  refine ⟨?_, ?_, ?_⟩
  · exact (c5_amended "AB" initState initState decidedLoad).2.2.2.2.1
      ⟨1⟩ ⟨1, "Pizza"⟩ rfl (by decide)
  · exact (c5_amended "AB" initState initState undecidedLoad).2.2.2.1 rfl
  · exact (c5_amended "AB" initState initState missingOptLoad).2.2.2.2.2.1
      ⟨5⟩ rfl (by decide)

/-- C7 fails as stated: a failing room load with a server-provided message
surfaces only the fixed generic toast; the server's message is dropped
(source lines 316-319). -/
theorem c7_counterexample :
    (loadRoom "AB" initState (.error (some "Room not found"))).toasts =
      [.error "Failed to load room data"]
    ∧ Toast.error "Room not found" ∉
        (loadRoom "AB" initState (.error (some "Room not found"))).toasts := by
  decide

/-- C7 amended: every failing operation except the room load surfaces the
server-provided message, falling back to a generic action-specific message
when the server provides none; the room load always shows its generic
message. -/
theorem c7_amended (rc input method : String) (s : RoomViewState)
    (r : RoomData) (m : Option String)
    (ld : Except (Option String) LoadResponse) :
    (loadRoom rc s (.error m)).toasts = [.error "Failed to load room data"]
    ∧ (jsTrim s.optionText ≠ "" → s.room = some r →
        (submitOption rc s (.error m) ld).map OpResult.toasts =
          some [.error (m.getD "Failed to add option")])
    ∧ (s.room = some r →
        (openVoting rc s (.error m) ld).toasts =
          [.error (m.getD "Failed to open voting")])
    ∧ (∀ oid, s.selectedOptionId = some oid → s.room = some r →
        (vote rc s (.error m) ld).map OpResult.toasts =
          some [.error (m.getD "Failed to vote")])
    ∧ (s.room = some r →
        (closeVoting rc s (.error m) ld).toasts =
          [.error (m.getD "Failed to close voting")])
    ∧ (s.room = some r →
        (triggerTiebreaker rc method s (.error m) ld).toasts =
          [.error (m.getD "Failed to trigger tiebreaker")])
    ∧ (jsTrim input ≠ "" →
        (joinRoom input (.error m)).toasts =
          [.error (m.getD "Failed to join room")]) := by
  refine ⟨rfl, ?_, ?_, ?_, ?_, ?_, ?_⟩
  · intro hne hr
    simp [submitOption, hne, hr]
  · intro hr
    simp [openVoting, hr]
  · intro oid hsel hr
    simp [vote, hsel, hr]
  · intro hr
    simp [closeVoting, hr]
  · intro hr
    simp [triggerTiebreaker, hr]
  · intro hne
    simp [joinRoom, hne]

/-- Witness for C7 amended at concrete inputs with server message "Boom":
every non-load operation surfaces "Boom"; the load shows its generic text. -/
theorem c7_amended_witness :
    (loadRoom "AB" initState (.error (some "Boom"))).toasts =
      [.error "Failed to load room data"]
    ∧ (submitOption "AB" closedFreshState (.error (some "Boom"))
        (.error none)).map OpResult.toasts = some [.error "Boom"]
    ∧ (openVoting "AB" closedFreshState (.error (some "Boom"))
        (.error none)).toasts = [.error "Boom"]
    ∧ (vote "AB" votingOpenState (.error (some "Boom"))
        (.error none)).map OpResult.toasts = some [.error "Boom"]
    ∧ (closeVoting "AB" votingOpenState (.error (some "Boom"))
        (.error none)).toasts = [.error "Boom"]
    ∧ (triggerTiebreaker "AB" "coin" tiedCloseState (.error (some "Boom"))
        (.error none)).toasts = [.error "Boom"]
    ∧ (joinRoom " ab " (.error (some "Boom"))).toasts = [.error "Boom"] := by
  refine ⟨?_, ?_, ?_, ?_, ?_, ?_, ?_⟩
  · exact (c7_amended "AB" " ab " "coin" initState roomClosedRec
      (some "Boom") (.error none)).1
  · exact (c7_amended "AB" " ab " "coin" closedFreshState roomClosedRec
      (some "Boom") (.error none)).2.1 (by decide) rfl
  · exact (c7_amended "AB" " ab " "coin" closedFreshState roomClosedRec
      (some "Boom") (.error none)).2.2.1 rfl
  · exact (c7_amended "AB" " ab " "coin" votingOpenState roomOpenRec
      (some "Boom") (.error none)).2.2.2.1 1 rfl rfl
  · exact (c7_amended "AB" " ab " "coin" votingOpenState roomOpenRec
      (some "Boom") (.error none)).2.2.2.2.1 rfl
  · exact (c7_amended "AB" " ab " "coin" tiedCloseState roomOpenRec
      (some "Boom") (.error none)).2.2.2.2.2.1 rfl
  · exact (c7_amended "AB" " ab " "coin" initState roomClosedRec
      (some "Boom") (.error none)).2.2.2.2.2.2 (by decide)

/-- Witness for C10 at concrete inputs: blanks are rejected locally, and
" ab " joins and navigates as "AB". -/
theorem c10_joinRoom_normalizes_witness :
    joinRoom "  " (.ok ()) = ⟨[.error "Enter room code"], [], none⟩
    ∧ (joinRoom " ab " (.ok ())).calls = [.postJoin "AB"]
    ∧ (joinRoom " ab " (.ok ())).nav = some "/room/AB" := by
  refine ⟨?_, ?_, ?_⟩
  · exact (c10_joinRoom_normalizes "  " (.ok ())).1 (by decide)
  · simpa using ((c10_joinRoom_normalizes " ab " (.ok ())).2 (by decide)).1
  · simpa using ((c10_joinRoom_normalizes " ab " (.ok ())).2 (by decide)).2
      () rfl
